import Mathlib

/-!
Shallow embedding of the talkcody LLM gateway sources
`src-tauri/src/llm/image_generation/volcengine.rs` and
`src-tauri/src/llm/providers/kimi_coding_provider.rs`, together with
spec-modelled stubs for the external collaborators those files use
(credential store, endpoint resolver, OpenAI protocol strategy).
Asynchronous effects (credential lookup, HTTP transport) are passed in
explicitly; the HTTP side of `generate` additionally records a trace of
the client-build and request-send events so that "no network call was
made" is a provable statement.
-/

/-- JSON values, standing in for `serde_json::Value` and for the wire
payloads that serde serializes/deserializes. -/
inductive Json where
  | null : Json
  | str (s : String) : Json
  | num (n : Int) : Json
  | bool (b : Bool) : Json
  | arr (elems : List Json) : Json
  | obj (fields : List (String × Json)) : Json
deriving Repr

/-- First-match lookup over a JSON object's field list (serde object semantics). -/
def lookupPairs : List (String × Json) → String → Option Json
  | [], _ => none
  | (k, v) :: rest, name => if k = name then some v else lookupPairs rest name

/-- Field lookup on a JSON value; `none` on non-objects. -/
def Json.lookupField : Json → String → Option Json
  | .obj fields, name => lookupPairs fields name
  | _, _ => none

/-- Rust `str::trim_end_matches('/')`: remove every trailing `'/'`. -/
def trimEndSlashes (s : String) : String :=
  String.mk ((s.data.reverse.dropWhile (fun c => c = '/')).reverse)

/-- Remove exactly one trailing `'/'` when present (the spec's
"that URL with exactly one trailing slash stripped"). -/
def stripOneTrailingSlash (s : String) : String :=
  match s.data.reverse with
  | '/' :: rest => String.mk rest.reverse
  | _ => s

/-- `reqwest::StatusCode::is_success`: HTTP status in 200..=299. -/
def statusIsSuccess (status : Nat) : Bool :=
  200 ≤ status && status < 300

/-- Protocol dialect tag of `crate::llm::types::ProtocolType`; the sources
exercise the `OpenAiCompatible` variant. -/
inductive ProtocolType where
  | OpenAiCompatible : ProtocolType
deriving DecidableEq, Repr

/-- Authentication-scheme tag of `crate::llm::types::AuthType`; the sources
exercise the `Bearer` variant. -/
inductive AuthType where
  | Bearer : AuthType
deriving DecidableEq, Repr

/-- `crate::llm::types::ProviderConfig`, with the fields its construction in
`volcengine.rs`'s tests exhibits: identifier, display name, protocol tag,
default base URL, credential name, capability flags, optional alternate
tier base URLs, optional default headers / extra body, auth tag. -/
structure ProviderConfig where
  id : String
  name : String
  protocol : ProtocolType
  base_url : String
  api_key_name : String
  supports_oauth : Bool
  supports_coding_plan : Bool
  supports_international : Bool
  coding_plan_base_url : Option String
  international_base_url : Option String
  headers : Option (List (String × String))
  extra_body : Option Json
  auth_type : AuthType
deriving Repr

/-- A `HashMap<String, String>` modelled extensionally as a partial map. -/
def StrMap : Type := String → Option String

/-- `HashMap::insert`: the new binding replaces any existing one. -/
def StrMap.insert (m : StrMap) (k v : String) : StrMap :=
  fun x => if x = k then some v else m x

/-- Modelled from the spec: the credential/settings store behind
`ApiKeyManager` (`crate::llm::auth::api_key_manager`) is not among the
sources; per spec section 6 it exposes `get(name) -> Optional<string>`
which may fail with a store error, and per section 6 the settings store
also carries the runtime endpoint-tier flags consulted during
endpoint-tier selection. -/
structure ApiKeyManager where
  settings : String → Except String (Option String)
  codingPlanEnabled : Bool
  internationalEnabled : Bool

/-- `ApiKeyManager::get_setting`: asynchronous store lookup, modelled as the
store function itself. -/
def ApiKeyManager.get_setting (m : ApiKeyManager) (name : String) :
    Except String (Option String) :=
  m.settings name

/-- `crate::llm::auth::api_key_manager::ProviderCredentials`: the variants
`volcengine.rs` matches on — a bearer token, or "none configured". -/
inductive ProviderCredentials where
  | Token (token : String) : ProviderCredentials
  | None : ProviderCredentials
deriving DecidableEq, Repr

/-- Modelled from the spec: `ApiKeyManager::get_credentials` is not among
the sources; per spec section 4.1 it looks up the config's credential
name and returns the configured secret or a distinguishable "none"
value, never throwing on missing configuration. -/
def ApiKeyManager.get_credentials (m : ApiKeyManager) (config : ProviderConfig) :
    Except String ProviderCredentials :=
  match m.settings config.api_key_name with
  | .error e => .error e
  | .ok (some v) => .ok (.Token v)
  | .ok none => .ok .None

/-- `crate::llm::providers::provider::BaseProvider`: owns the config. -/
structure BaseProvider where
  config : ProviderConfig

/-- `BaseProvider::new`. -/
def BaseProvider.new (config : ProviderConfig) : BaseProvider :=
  ⟨config⟩

/-- Modelled from the spec: the alternate-tier candidate of endpoint
resolution (spec section 4.2): a tier is used only when its base URL is
configured and its capability flag is set and the runtime flag enables
it; the coding tier is given precedence over the international tier
(the spec leaves the priority between simultaneously enabled tiers
open, section 9). -/
def pickAlternate (c : ProviderConfig) (m : ApiKeyManager) : Option String :=
  match (if c.supports_coding_plan && m.codingPlanEnabled then c.coding_plan_base_url else none) with
  | some u => some u
  | none =>
    if c.supports_international && m.internationalEnabled then c.international_base_url else none

/-- Modelled from the spec: `BaseProvider::resolve_base_url_with_fallback`
is not among the sources; per spec sections 4.2 and 8 it deterministically
returns one base URL — an enabled, configured alternate tier over the
default — with exactly one trailing slash stripped, and fails with a
configuration error when no usable base URL exists. -/
def BaseProvider.resolve_base_url_with_fallback (self : BaseProvider) (m : ApiKeyManager) :
    Except String String :=
  match pickAlternate self.config m with
  | some u => .ok (stripOneTrailingSlash u)
  | none =>
    if self.config.base_url = "" then
      .error "No usable base URL configured"
    else
      .ok (stripOneTrailingSlash self.config.base_url)

/-- Modelled from the spec: the normalized image-generation request type
(`crate::llm::image_generation::types::ImageGenerationRequest`) is not
among the sources; its fields are those `volcengine.rs` reads
(`prompt`, `size`, `quality`, `n`, `response_format`) plus the model
name the normalized request carries, which `generate` ignores in favour
of its `model` argument. -/
structure ImageGenerationRequest where
  model : Option String
  prompt : String
  size : Option String
  quality : Option String
  n : Option Nat
  response_format : Option String
deriving DecidableEq, Repr

/-- `crate::llm::image_generation::types::GeneratedImage`, with the fields
`volcengine.rs` constructs. -/
structure GeneratedImage where
  b64_json : Option String
  url : Option String
  mime_type : String
  revised_prompt : Option String
deriving DecidableEq, Repr

/-- `VolcengineImageRequest` (volcengine.rs lines 11-23). -/
structure VolcengineImageRequest where
  model : String
  prompt : String
  size : Option String
  quality : Option String
  n : Option Nat
  response_format : Option String
deriving DecidableEq, Repr

/-- Serde serialization of `VolcengineImageRequest`: `model` and `prompt`
always serialize; the optional fields carry
`skip_serializing_if = "Option::is_none"` and appear exactly when `Some`. -/
def VolcengineImageRequest.serialize (r : VolcengineImageRequest) : Json :=
  Json.obj
    ([("model", Json.str r.model), ("prompt", Json.str r.prompt)]
      ++ (match r.size with | some s => [("size", Json.str s)] | none => [])
      ++ (match r.quality with | some q => [("quality", Json.str q)] | none => [])
      ++ (match r.n with | some k => [("n", Json.num (Int.ofNat k))] | none => [])
      ++ (match r.response_format with | some f => [("response_format", Json.str f)] | none => []))

/-- `VolcengineImageData` (volcengine.rs lines 31-38). -/
structure VolcengineImageData where
  b64_json : Option String
  url : Option String
  revised_prompt : Option String
deriving DecidableEq, Repr

/-- `VolcengineImageResponse` (volcengine.rs lines 26-29). -/
structure VolcengineImageResponse where
  data : List VolcengineImageData
deriving DecidableEq, Repr

/-- Serde deserialization of one `Option<String>` field: missing or `null`
becomes `None`, a string becomes `Some`, any other shape is a type error. -/
def getStrOpt (fields : List (String × Json)) (name : String) :
    Except String (Option String) :=
  match lookupPairs fields name with
  | none => .ok none
  | some .null => .ok none
  | some (.str s) => .ok (some s)
  | some _ => .error ("invalid type for field " ++ name)

/-- Serde deserialization of `VolcengineImageData`: an object with three
optional string fields. -/
def VolcengineImageData.deserialize : Json → Except String VolcengineImageData
  | .obj fields => do
    let b ← getStrOpt fields "b64_json"
    let u ← getStrOpt fields "url"
    let r ← getStrOpt fields "revised_prompt"
    .ok ⟨b, u, r⟩
  | _ => .error "expected object for VolcengineImageData"

/-- Serde deserialization of `VolcengineImageResponse`: an object with a
required `data` array. -/
def VolcengineImageResponse.deserialize : Json → Except String VolcengineImageResponse
  | .obj fields =>
    match lookupPairs fields "data" with
    | some (.arr xs) =>
      (xs.mapM VolcengineImageData.deserialize).map VolcengineImageResponse.mk
    | some _ => .error "invalid type for field data"
    | none => .error "missing field data"
  | _ => .error "expected object for VolcengineImageResponse"

/-- One HTTP response as the transport oracle delivers it: the status code,
the outcome of reading the body as text (`response.text()`), and the
outcome of the external JSON-text parsing step of `response.json()`. -/
structure HttpResponse where
  status : Nat
  text : Except String String
  jsonBody : Except String Json

/-- One outgoing HTTP POST as `generate` assembles it. -/
structure SentRequest where
  url : String
  headers : List (String × String)
  body : VolcengineImageRequest
deriving DecidableEq, Repr

/-- Trace events of one `generate` call: the HTTP client being built, and
a request being handed to the transport. -/
inductive GenEvent where
  | builtClient : GenEvent
  | sent (r : SentRequest) : GenEvent
deriving DecidableEq, Repr

/-- The requests a trace handed to the transport. -/
def sentRequests : List GenEvent → List SentRequest
  | [] => []
  | .builtClient :: rest => sentRequests rest
  | .sent r :: rest => r :: sentRequests rest

/-- The URLs a trace posted to. -/
def sentUrls (t : List GenEvent) : List String :=
  (sentRequests t).map SentRequest.url

/-- `VolcengineImageClient` (volcengine.rs lines 40-42). -/
structure VolcengineImageClient where
  config : ProviderConfig

/-- `VolcengineImageClient::new`. -/
def VolcengineImageClient.new (config : ProviderConfig) : VolcengineImageClient :=
  ⟨config⟩

/-- `VolcengineImageClient::generate` (volcengine.rs lines 49-134), with the
credential store and the HTTP transport passed in explicitly and the
client-build / request-send effects recorded in a trace. The header-name
and header-value validation performed by the external HTTP library on
the two assembled headers is modelled as always succeeding. -/
def VolcengineImageClient.generate (self : VolcengineImageClient)
    (api_keys : ApiKeyManager)
    (transport : SentRequest → Except String HttpResponse)
    (model : String) (request : ImageGenerationRequest) :
    Except String (List GeneratedImage) × List GenEvent :=
  match ApiKeyManager.get_credentials api_keys self.config with
  | .error e => (.error e, [])
  | .ok .None =>
    (.error "API key not configured for Volcengine image generation / Volcengine 图片生成未配置 API 密钥", [])
  | .ok (.Token api_key) =>
    match BaseProvider.resolve_base_url_with_fallback (BaseProvider.new self.config) api_keys with
    | .error e => (.error e, [])
    | .ok base_url =>
      let url := trimEndSlashes base_url ++ "/images/generations"
      let body : VolcengineImageRequest :=
        { model := model
          prompt := request.prompt
          size := request.size
          quality := request.quality
          n := request.n
          response_format := request.response_format }
      let headers : List (String × String) :=
        [("Content-Type", "application/json"),
         ("Authorization", "Bearer " ++ api_key)]
      let req : SentRequest := { url := url, headers := headers, body := body }
      let result : Except String (List GeneratedImage) :=
        match transport req with
        | .error e => .error ("Volcengine image request failed: " ++ e)
        | .ok response =>
          if statusIsSuccess response.status then
            match response.jsonBody with
            | .error e => .error ("Failed to parse Volcengine response: " ++ e)
            | .ok j =>
              match VolcengineImageResponse.deserialize j with
              | .error e => .error ("Failed to parse Volcengine response: " ++ e)
              | .ok payload =>
                .ok (payload.data.map fun item =>
                  { b64_json := item.b64_json
                    url := item.url
                    mime_type := "image/png"
                    revised_prompt := item.revised_prompt })
          else
            let errBody := match response.text with
              | .ok b => b
              | .error _ => "Unknown error"
            .error ("Volcengine image generation failed (" ++ toString response.status
              ++ "): " ++ errBody ++ " / Volcengine 图片生成失败")
      (result, [.builtClient, .sent req])

/-- Modelled from the spec: `StreamParseState`
(`crate::llm::protocols::stream_parser`) is not among the sources; per
spec section 3 it accumulates partially-buffered input, any
partially-assembled structured fields, and a terminal flag. -/
structure StreamParseState where
  buffer : String
  partialToolArgs : String
  terminal : Bool
deriving DecidableEq, Repr

/-- Modelled from the spec: `StreamEvent` (`crate::llm::types`) is not among
the sources; per spec section 3 it is a closed set of normalized
outcomes: content delta, tool-call delta, terminal (stop reason plus
usage), or error. -/
inductive StreamEvent where
  | Content (delta : String) : StreamEvent
  | ToolCallDelta (delta : String) : StreamEvent
  | Terminal (stopReason : String) (usage : String) : StreamEvent
  | ErrorEvent (message : String) : StreamEvent
deriving DecidableEq, Repr

/-- Modelled from the spec: `HeaderBuildContext`
(`crate::llm::protocols::header_builder`) is not among the sources; per
spec section 4.3 header building draws on the vendor's config. -/
structure HeaderBuildContext where
  config : ProviderConfig

/-- Modelled from the spec: `RequestBuildContext`
(`crate::llm::protocols::request_builder`) is not among the sources; per
spec section 4.3 request building maps the normalized request fields
under the vendor's config. -/
structure RequestBuildContext where
  config : ProviderConfig
  request : Json

/-- Modelled from the spec: `StreamParseContext`
(`crate::llm::protocols::stream_parser`) is not among the sources; per
spec section 4.3 one parse call consumes one chunk of raw input. -/
structure StreamParseContext where
  chunk : String

/-- Modelled from the spec: `OpenAiProtocol`
(`crate::llm::protocols::openai_protocol`) is not among the sources; per
spec section 4.3 a ProtocolStrategy exposes header building, request
building, and chunkwise stream parsing (which updates the state and
yields zero-or-one event). Its three operations are therefore abstract
function fields, and a provider is constructed with the strategy value. -/
structure OpenAiProtocol where
  build_base_headers : HeaderBuildContext → StrMap
  build_request : RequestBuildContext → Except String Json
  parse_stream_event :
    StreamParseContext → StreamParseState → Except String (Option StreamEvent) × StreamParseState

/-- Modelled from the spec: `ProviderContext`
(`crate::llm::providers::provider`) is not among the sources; the Kimi
provider reads its `api_key_manager` field. -/
structure ProviderContext where
  api_key_manager : ApiKeyManager

/-- `crate::llm::providers::provider::ProviderCredentials` (aliased `Creds`
in kimi_coding_provider.rs): the variant the source constructs is
`ApiKey`; the spec's "none configured" variant completes the closed set. -/
inductive Creds where
  | ApiKey (key : String) : Creds
  | NoCredential : Creds
deriving DecidableEq, Repr

/-- `KimiCodingProvider` (kimi_coding_provider.rs lines 19-22). -/
structure KimiCodingProvider where
  base : BaseProvider
  protocol : OpenAiProtocol

/-- `KimiCodingProvider::new` (kimi_coding_provider.rs lines 25-30); the
strategy value is passed in because `OpenAiProtocol`'s implementation
lives outside the sources. -/
def KimiCodingProvider.new (config : ProviderConfig) (protocol : OpenAiProtocol) :
    KimiCodingProvider :=
  { base := BaseProvider.new config, protocol := protocol }

/-- `Provider::id` for KimiCodingProvider. -/
def KimiCodingProvider.id (self : KimiCodingProvider) : String :=
  self.base.config.id

/-- `Provider::name` for KimiCodingProvider. -/
def KimiCodingProvider.name (self : KimiCodingProvider) : String :=
  self.base.config.name

/-- `Provider::protocol_type` for KimiCodingProvider. -/
def KimiCodingProvider.protocol_type (self : KimiCodingProvider) : ProtocolType :=
  self.base.config.protocol

/-- `Provider::config` for KimiCodingProvider. -/
def KimiCodingProvider.config (self : KimiCodingProvider) : ProviderConfig :=
  self.base.config

/-- `Provider::resolve_base_url` for KimiCodingProvider: standard endpoint
resolution through the base helper. -/
def KimiCodingProvider.resolve_base_url (self : KimiCodingProvider) (ctx : ProviderContext) :
    Except String String :=
  self.base.resolve_base_url_with_fallback ctx.api_key_manager

/-- `Provider::get_credentials` for KimiCodingProvider
(kimi_coding_provider.rs lines 58-65): looks the config's key name up in
the settings store, propagates store errors, and turns an absent value
into a named error. -/
def KimiCodingProvider.get_credentials (self : KimiCodingProvider) (api_key_manager : ApiKeyManager) :
    Except String Creds :=
  match api_key_manager.get_setting self.base.config.api_key_name with
  | .error e => .error e
  | .ok none => .error ("API key '" ++ self.base.config.api_key_name ++ "' not found")
  | .ok (some key_value) => .ok (.ApiKey key_value)

/-- `Provider::add_provider_headers` for KimiCodingProvider
(kimi_coding_provider.rs lines 67-75): inserts the KimiCLI User-Agent
and succeeds. -/
def KimiCodingProvider.add_provider_headers (_self : KimiCodingProvider)
    (_ctx : ProviderContext) (headers : StrMap) : Except String StrMap :=
  .ok (headers.insert "User-Agent" "KimiCLI/1.3")

/-- `Provider::build_protocol_headers` for KimiCodingProvider
(kimi_coding_provider.rs lines 77-79). -/
def KimiCodingProvider.build_protocol_headers (self : KimiCodingProvider)
    (ctx : HeaderBuildContext) : StrMap :=
  self.protocol.build_base_headers ctx

/-- `Provider::build_protocol_request` for KimiCodingProvider
(kimi_coding_provider.rs lines 81-86). -/
def KimiCodingProvider.build_protocol_request (self : KimiCodingProvider)
    (ctx : RequestBuildContext) : Except String Json :=
  self.protocol.build_request ctx

/-- `Provider::parse_protocol_stream_event` for KimiCodingProvider
(kimi_coding_provider.rs lines 88-94); the updated state is returned
alongside the result. -/
def KimiCodingProvider.parse_protocol_stream_event (self : KimiCodingProvider)
    (ctx : StreamParseContext) (state : StreamParseState) :
    Except String (Option StreamEvent) × StreamParseState :=
  self.protocol.parse_stream_event ctx state

/-- A concrete provider config used by concrete witnesses, mirroring the
construction in volcengine.rs's tests. -/
def sampleVolcConfig : ProviderConfig :=
  { id := "volcengine"
    name := "Volcengine"
    protocol := .OpenAiCompatible
    base_url := "https://ark.cn-beijing.volces.com/api/v3"
    api_key_name := "VOLCENGINE_API_KEY"
    supports_oauth := false
    supports_coding_plan := false
    supports_international := false
    coding_plan_base_url := none
    international_base_url := none
    headers := none
    extra_body := none
    auth_type := .Bearer }

/-- A concrete normalized image request used by concrete witnesses. -/
def sampleRequest : ImageGenerationRequest :=
  { model := some "m1"
    prompt := "a"
    size := none
    quality := none
    n := none
    response_format := none }

/-- A credential store holding no credential for any name. -/
def mgrNone : ApiKeyManager :=
  { settings := fun _ => .ok none, codingPlanEnabled := false, internationalEnabled := false }

/-- A credential store resolving every name to the token "tok". -/
def mgrTok : ApiKeyManager :=
  { settings := fun _ => .ok (some "tok"), codingPlanEnabled := false, internationalEnabled := false }

/-- A trivial concrete protocol-strategy value used by concrete witnesses. -/
def sampleProtocol : OpenAiProtocol :=
  { build_base_headers := fun _ => fun _ => none
    build_request := fun ctx => .ok ctx.request
    parse_stream_event := fun _ st => (.ok none, st) }

/-- A concrete Kimi provider used by concrete witnesses. -/
def sampleKimi : KimiCodingProvider :=
  KimiCodingProvider.new
    { id := "kimi-coding"
      name := "Kimi Coding"
      protocol := .OpenAiCompatible
      base_url := "https://api.moonshot.cn/v1"
      api_key_name := "KIMI_API_KEY"
      supports_oauth := false
      supports_coding_plan := true
      supports_international := false
      coding_plan_base_url := none
      international_base_url := none
      headers := none
      extra_body := none
      auth_type := .Bearer }
    sampleProtocol

/-- C4: when the config's api_key_name is absent from the store,
`KimiCodingProvider::get_credentials` returns an error naming the
missing credential (never a transport failure, never a panic), and when
the store holds a value v for that name it returns `ApiKey v`. -/
theorem kimi_get_credentials_spec (self : KimiCodingProvider) (mgr : ApiKeyManager) :
    (mgr.settings self.base.config.api_key_name = .ok none →
      self.get_credentials mgr =
        .error ("API key '" ++ self.base.config.api_key_name ++ "' not found")) ∧
    (∀ v : String, mgr.settings self.base.config.api_key_name = .ok (some v) →
      self.get_credentials mgr = .ok (.ApiKey v)) := by
  constructor
  · intro h
    simp [KimiCodingProvider.get_credentials, ApiKeyManager.get_setting, h]
  · intro v h
    simp [KimiCodingProvider.get_credentials, ApiKeyManager.get_setting, h]

/-- Witness for C4: both branches at concrete stores. -/
theorem kimi_get_credentials_spec_witness :
    KimiCodingProvider.get_credentials sampleKimi mgrNone =
      .error ("API key '" ++ sampleKimi.base.config.api_key_name ++ "' not found") ∧
    KimiCodingProvider.get_credentials sampleKimi mgrTok = .ok (.ApiKey "tok") :=
  ⟨(kimi_get_credentials_spec sampleKimi mgrNone).1 rfl,
   (kimi_get_credentials_spec sampleKimi mgrTok).2 "tok" rfl⟩

/-- C5: `KimiCodingProvider::add_provider_headers` succeeds on every header
mapping, afterwards the mapping holds User-Agent = KimiCLI/1.3 (the
vendor override wins even if an entry was already present), and every
other key's value is unchanged. -/
theorem kimi_add_provider_headers_spec (self : KimiCodingProvider)
    (ctx : ProviderContext) (h : StrMap) :
    self.add_provider_headers ctx h = .ok (h.insert "User-Agent" "KimiCLI/1.3") ∧
    (h.insert "User-Agent" "KimiCLI/1.3") "User-Agent" = some "KimiCLI/1.3" ∧
    (∀ k : String, k ≠ "User-Agent" → (h.insert "User-Agent" "KimiCLI/1.3") k = h k) := by
  refine ⟨rfl, ?_, ?_⟩
  · simp [StrMap.insert]
  · intro k hk
    simp [StrMap.insert, hk]

/-- A concrete header map that already binds User-Agent, for the C5 witness. -/
def oldHeaders : StrMap :=
  fun k => if k = "User-Agent" then some "old-agent" else some "kept"

/-- Witness for C5: a map that already binds User-Agent gets overridden and
an unrelated key keeps its value. -/
theorem kimi_add_provider_headers_spec_witness :
    KimiCodingProvider.add_provider_headers sampleKimi ⟨mgrNone⟩ oldHeaders =
      .ok (StrMap.insert oldHeaders "User-Agent" "KimiCLI/1.3") ∧
    StrMap.insert oldHeaders "User-Agent" "KimiCLI/1.3" "User-Agent" = some "KimiCLI/1.3" ∧
    StrMap.insert oldHeaders "User-Agent" "KimiCLI/1.3" "X-Other" = oldHeaders "X-Other" :=
  ⟨(kimi_add_provider_headers_spec sampleKimi ⟨mgrNone⟩ oldHeaders).1,
   (kimi_add_provider_headers_spec sampleKimi ⟨mgrNone⟩ oldHeaders).2.1,
   (kimi_add_provider_headers_spec sampleKimi ⟨mgrNone⟩ oldHeaders).2.2 "X-Other" (by decide)⟩

/-- C6: the provider's protocol operations are pass-through delegation to
the bound strategy: for every strategy value and every input (state
included) they return exactly what the strategy returns. -/
theorem kimi_protocol_delegation (p : KimiCodingProvider) (hctx : HeaderBuildContext)
    (rctx : RequestBuildContext) (sctx : StreamParseContext) (st : StreamParseState) :
    p.build_protocol_headers hctx = p.protocol.build_base_headers hctx ∧
    p.build_protocol_request rctx = p.protocol.build_request rctx ∧
    p.parse_protocol_stream_event sctx st = p.protocol.parse_stream_event sctx st :=
  ⟨rfl, rfl, rfl⟩

/-- C9: `KimiCodingProvider::new` stores the config unchanged — the
accessors return exactly the config's id, name, protocol, and the config
itself. -/
theorem kimi_new_roundtrip (c : ProviderConfig) (prot : OpenAiProtocol) :
    (KimiCodingProvider.new c prot).id = c.id ∧
    (KimiCodingProvider.new c prot).name = c.name ∧
    (KimiCodingProvider.new c prot).protocol_type = c.protocol ∧
    (KimiCodingProvider.new c prot).config = c :=
  ⟨rfl, rfl, rfl, rfl⟩

/-- C2: when the config's named credential resolves to "none configured",
`VolcengineImageClient::generate` fails with the credential-missing
error and its effect trace is empty: no HTTP client is built and no
request is sent. -/
theorem volcengine_credential_missing (config : ProviderConfig) (api_keys : ApiKeyManager)
    (transport : SentRequest → Except String HttpResponse)
    (model : String) (request : ImageGenerationRequest)
    (h : api_keys.settings config.api_key_name = .ok none) :
    VolcengineImageClient.generate (VolcengineImageClient.new config) api_keys transport
        model request =
      (.error "API key not configured for Volcengine image generation / Volcengine 图片生成未配置 API 密钥",
        []) := by
  simp [VolcengineImageClient.generate, VolcengineImageClient.new,
    ApiKeyManager.get_credentials, h]

/-- Witness for C2: the sample config against the empty store. -/
theorem volcengine_credential_missing_witness :
    VolcengineImageClient.generate (VolcengineImageClient.new sampleVolcConfig) mgrNone
        (fun _ => .error "unreachable") "m1" sampleRequest =
      (.error "API key not configured for Volcengine image generation / Volcengine 图片生成未配置 API 密钥",
        []) :=
  volcengine_credential_missing sampleVolcConfig mgrNone (fun _ => .error "unreachable")
    "m1" sampleRequest rfl

/-- C1: for every successful response whose body deserializes, `generate`
maps each item of the `data` array, in order and one-for-one, to a
GeneratedImage copying `b64_json`, `url` and `revised_prompt` and fixing
`mime_type` to "image/png". -/
theorem volcengine_generate_maps_data (config : ProviderConfig) (api_keys : ApiKeyManager)
    (model : String) (request : ImageGenerationRequest) (tok : String) (b : String)
    (resp : HttpResponse) (j : Json) (payload : VolcengineImageResponse)
    (hc : api_keys.settings config.api_key_name = .ok (some tok))
    (hb : BaseProvider.resolve_base_url_with_fallback (BaseProvider.new config) api_keys = .ok b)
    (hs : statusIsSuccess resp.status = true)
    (hj : resp.jsonBody = .ok j)
    (hp : VolcengineImageResponse.deserialize j = .ok payload) :
    (VolcengineImageClient.generate (VolcengineImageClient.new config) api_keys
        (fun _ => .ok resp) model request).fst =
      .ok (payload.data.map fun item =>
        { b64_json := item.b64_json
          url := item.url
          mime_type := "image/png"
          revised_prompt := item.revised_prompt }) := by
  simp [VolcengineImageClient.generate, VolcengineImageClient.new,
    ApiKeyManager.get_credentials, hc, hb, hs, hj, hp]

/-- The concrete success response delivering one b64 item, for the C1 witness. -/
def respB64 : HttpResponse :=
  { status := 200
    text := .ok ""
    jsonBody := .ok (Json.obj [("data", Json.arr
      [Json.obj [("b64_json", Json.str "abc123"), ("revised_prompt", Json.str "refined")]])]) }

/-- The concrete success response delivering one url item, for the C1 witness. -/
def respUrl : HttpResponse :=
  { status := 200
    text := .ok ""
    jsonBody := .ok (Json.obj [("data", Json.arr
      [Json.obj [("url", Json.str "https://x/y.png")]])]) }

/-- Witness for C1: the two end-to-end scenarios of the spec. -/
theorem volcengine_generate_maps_data_witness :
    (VolcengineImageClient.generate (VolcengineImageClient.new sampleVolcConfig) mgrTok
        (fun _ => .ok respB64) "m1" sampleRequest).fst =
      .ok [{ b64_json := some "abc123", url := none, mime_type := "image/png",
             revised_prompt := some "refined" }] ∧
    (VolcengineImageClient.generate (VolcengineImageClient.new sampleVolcConfig) mgrTok
        (fun _ => .ok respUrl) "m1" sampleRequest).fst =
      .ok [{ b64_json := none, url := some "https://x/y.png", mime_type := "image/png",
             revised_prompt := none }] :=
  ⟨volcengine_generate_maps_data sampleVolcConfig mgrTok "m1" sampleRequest "tok"
      "https://ark.cn-beijing.volces.com/api/v3" respB64
      (Json.obj [("data", Json.arr
        [Json.obj [("b64_json", Json.str "abc123"), ("revised_prompt", Json.str "refined")]])])
      ⟨[⟨some "abc123", none, some "refined"⟩]⟩ rfl rfl rfl rfl rfl,
   volcengine_generate_maps_data sampleVolcConfig mgrTok "m1" sampleRequest "tok"
      "https://ark.cn-beijing.volces.com/api/v3" respUrl
      (Json.obj [("data", Json.arr [Json.obj [("url", Json.str "https://x/y.png")]])])
      ⟨[⟨none, some "https://x/y.png", none⟩]⟩ rfl rfl rfl rfl rfl⟩

/-- C7: whenever the credential resolves to a token t and the endpoint
resolves, `generate` hands the transport exactly one request, whose
header list carries Content-Type: application/json and
Authorization: Bearer t. -/
theorem volcengine_generate_auth_headers (config : ProviderConfig) (api_keys : ApiKeyManager)
    (transport : SentRequest → Except String HttpResponse)
    (model : String) (request : ImageGenerationRequest) (tok : String) (b : String)
    (hc : api_keys.settings config.api_key_name = .ok (some tok))
    (hb : BaseProvider.resolve_base_url_with_fallback (BaseProvider.new config) api_keys = .ok b) :
    ∃ req : SentRequest,
      sentRequests (VolcengineImageClient.generate (VolcengineImageClient.new config) api_keys
          transport model request).snd = [req] ∧
      req.headers = [("Content-Type", "application/json"),
                     ("Authorization", "Bearer " ++ tok)] := by
  refine ⟨{ url := trimEndSlashes b ++ "/images/generations",
            headers := [("Content-Type", "application/json"),
                        ("Authorization", "Bearer " ++ tok)],
            body := { model := model, prompt := request.prompt, size := request.size,
                      quality := request.quality, n := request.n,
                      response_format := request.response_format } }, ?_, rfl⟩
  simp [VolcengineImageClient.generate, VolcengineImageClient.new,
    ApiKeyManager.get_credentials, hc, hb, sentRequests]

/-- Witness for C7: concrete config, store and transport. -/
theorem volcengine_generate_auth_headers_witness :
    ∃ req : SentRequest,
      sentRequests (VolcengineImageClient.generate (VolcengineImageClient.new sampleVolcConfig)
          mgrTok (fun _ => .error "down") "m1" sampleRequest).snd = [req] ∧
      req.headers = [("Content-Type", "application/json"),
                     ("Authorization", "Bearer " ++ "tok")] :=
  volcengine_generate_auth_headers sampleVolcConfig mgrTok (fun _ => .error "down")
    "m1" sampleRequest "tok" "https://ark.cn-beijing.volces.com/api/v3" rfl rfl

/-- C10: whenever a request is sent, its body carries `model` from the model
argument (not the normalized request's own model field) and `prompt`
from the request, and in the serialized JSON body the optional fields
size, quality, n, response_format appear exactly when `Some`. -/
theorem volcengine_generate_body_fields (config : ProviderConfig) (api_keys : ApiKeyManager)
    (transport : SentRequest → Except String HttpResponse)
    (model : String) (request : ImageGenerationRequest) (tok : String) (b : String)
    (hc : api_keys.settings config.api_key_name = .ok (some tok))
    (hb : BaseProvider.resolve_base_url_with_fallback (BaseProvider.new config) api_keys = .ok b) :
    ∃ req : SentRequest,
      sentRequests (VolcengineImageClient.generate (VolcengineImageClient.new config) api_keys
          transport model request).snd = [req] ∧
      req.body = { model := model, prompt := request.prompt, size := request.size,
                   quality := request.quality, n := request.n,
                   response_format := request.response_format } ∧
      (VolcengineImageRequest.serialize req.body).lookupField "model" = some (.str model) ∧
      (VolcengineImageRequest.serialize req.body).lookupField "prompt" =
        some (.str request.prompt) ∧
      (VolcengineImageRequest.serialize req.body).lookupField "size" =
        request.size.map Json.str ∧
      (VolcengineImageRequest.serialize req.body).lookupField "quality" =
        request.quality.map Json.str ∧
      (VolcengineImageRequest.serialize req.body).lookupField "n" =
        request.n.map (fun k => Json.num (Int.ofNat k)) ∧
      (VolcengineImageRequest.serialize req.body).lookupField "response_format" =
        request.response_format.map Json.str := by
  refine ⟨{ url := trimEndSlashes b ++ "/images/generations",
            headers := [("Content-Type", "application/json"),
                        ("Authorization", "Bearer " ++ tok)],
            body := { model := model, prompt := request.prompt, size := request.size,
                      quality := request.quality, n := request.n,
                      response_format := request.response_format } }, ?_, rfl, ?_⟩
  · simp [VolcengineImageClient.generate, VolcengineImageClient.new,
      ApiKeyManager.get_credentials, hc, hb, sentRequests]
  · rcases request with ⟨mo, p, sz, q, n, rf⟩
    cases sz <;> cases q <;> cases n <;> cases rf <;>
      exact ⟨rfl, rfl, rfl, rfl, rfl, rfl⟩

/-- Witness for C10: concrete request with size and n set, quality and
response_format absent. -/
theorem volcengine_generate_body_fields_witness :
    ∃ req : SentRequest,
      sentRequests (VolcengineImageClient.generate (VolcengineImageClient.new sampleVolcConfig)
          mgrTok (fun _ => .error "down") "m2"
          { model := some "ignored", prompt := "a cat", size := some "1024x1024",
            quality := none, n := some 2, response_format := none }).snd = [req] ∧
      req.body = { model := "m2", prompt := "a cat", size := some "1024x1024",
                   quality := none, n := some 2, response_format := none } ∧
      (VolcengineImageRequest.serialize req.body).lookupField "model" = some (.str "m2") ∧
      (VolcengineImageRequest.serialize req.body).lookupField "prompt" = some (.str "a cat") ∧
      (VolcengineImageRequest.serialize req.body).lookupField "size" =
        (some "1024x1024" : Option String).map Json.str ∧
      (VolcengineImageRequest.serialize req.body).lookupField "quality" =
        (none : Option String).map Json.str ∧
      (VolcengineImageRequest.serialize req.body).lookupField "n" =
        (some 2 : Option Nat).map (fun k => Json.num (Int.ofNat k)) ∧
      (VolcengineImageRequest.serialize req.body).lookupField "response_format" =
        (none : Option String).map Json.str :=
  volcengine_generate_body_fields sampleVolcConfig mgrTok (fun _ => .error "down") "m2"
    { model := some "ignored", prompt := "a cat", size := some "1024x1024",
      quality := none, n := some 2, response_format := none }
    "tok" "https://ark.cn-beijing.volces.com/api/v3" rfl rfl

/-- String append is associative (via the underlying character lists). -/
theorem strAppend_assoc (a b c : String) : a ++ b ++ c = a ++ (b ++ c) := by
  apply String.ext
  simp [String.data_append]

/-- C8: on a non-success status, `generate` returns no images but an error
whose message contains both the status code and the raw response body. -/
theorem volcengine_generate_upstream_error (config : ProviderConfig) (api_keys : ApiKeyManager)
    (model : String) (request : ImageGenerationRequest) (tok : String) (b : String)
    (resp : HttpResponse) (bodyStr : String)
    (hc : api_keys.settings config.api_key_name = .ok (some tok))
    (hb : BaseProvider.resolve_base_url_with_fallback (BaseProvider.new config) api_keys = .ok b)
    (hs : statusIsSuccess resp.status = false)
    (ht : resp.text = .ok bodyStr) :
    (VolcengineImageClient.generate (VolcengineImageClient.new config) api_keys
        (fun _ => .ok resp) model request).fst =
      .error ("Volcengine image generation failed (" ++ toString resp.status ++ "): "
        ++ bodyStr ++ " / Volcengine 图片生成失败") ∧
    (∃ pre post : String,
      ("Volcengine image generation failed (" ++ toString resp.status ++ "): "
        ++ bodyStr ++ " / Volcengine 图片生成失败") = pre ++ (toString resp.status ++ post)) ∧
    (∃ pre post : String,
      ("Volcengine image generation failed (" ++ toString resp.status ++ "): "
        ++ bodyStr ++ " / Volcengine 图片生成失败") = pre ++ (bodyStr ++ post)) := by
  refine ⟨?_, ?_, ?_⟩
  · simp [VolcengineImageClient.generate, VolcengineImageClient.new,
      ApiKeyManager.get_credentials, hc, hb, hs, ht]
  · exact ⟨"Volcengine image generation failed (",
      "): " ++ bodyStr ++ " / Volcengine 图片生成失败", by simp [strAppend_assoc]⟩
  · exact ⟨"Volcengine image generation failed (" ++ toString resp.status ++ "): ",
      " / Volcengine 图片生成失败", by simp [strAppend_assoc]⟩

/-- The concrete failing upstream response for the C8 witness. -/
def resp404 : HttpResponse :=
  { status := 404
    text := .ok "boom"
    jsonBody := .error "not json" }

/-- Witness for C8: a concrete 404 with body "boom". -/
theorem volcengine_generate_upstream_error_witness :
    (VolcengineImageClient.generate (VolcengineImageClient.new sampleVolcConfig) mgrTok
        (fun _ => .ok resp404) "m1" sampleRequest).fst =
      .error ("Volcengine image generation failed (" ++ toString resp404.status ++ "): "
        ++ "boom" ++ " / Volcengine 图片生成失败") ∧
    (∃ pre post : String,
      ("Volcengine image generation failed (" ++ toString resp404.status ++ "): "
        ++ "boom" ++ " / Volcengine 图片生成失败") = pre ++ (toString resp404.status ++ post)) ∧
    (∃ pre post : String,
      ("Volcengine image generation failed (" ++ toString resp404.status ++ "): "
        ++ "boom" ++ " / Volcengine 图片生成失败") = pre ++ ("boom" ++ post)) :=
  volcengine_generate_upstream_error sampleVolcConfig mgrTok "m1" sampleRequest "tok"
    "https://ark.cn-beijing.volces.com/api/v3" resp404 "boom" rfl rfl rfl rfl

/-- C3 (amended): with only a default base URL set, the resolved base URL is
that URL with exactly one trailing slash stripped; `generate` then posts
to the resolved URL with all remaining trailing slashes also stripped
(Rust's `trim_end_matches('/')`), followed by "/images/generations". -/
theorem volcengine_post_url (config : ProviderConfig) (api_keys : ApiKeyManager)
    (transport : SentRequest → Except String HttpResponse)
    (model : String) (request : ImageGenerationRequest) (tok : String)
    (hcod : config.coding_plan_base_url = none)
    (hint : config.international_base_url = none)
    (hne : config.base_url ≠ "")
    (hc : api_keys.settings config.api_key_name = .ok (some tok)) :
    BaseProvider.resolve_base_url_with_fallback (BaseProvider.new config) api_keys =
      .ok (stripOneTrailingSlash config.base_url) ∧
    sentUrls (VolcengineImageClient.generate (VolcengineImageClient.new config) api_keys
        transport model request).snd =
      [trimEndSlashes (stripOneTrailingSlash config.base_url) ++ "/images/generations"] := by
  have hres : BaseProvider.resolve_base_url_with_fallback (BaseProvider.new config) api_keys =
      .ok (stripOneTrailingSlash config.base_url) := by
    simp [BaseProvider.resolve_base_url_with_fallback, BaseProvider.new, pickAlternate,
      hcod, hint, hne]
  refine ⟨hres, ?_⟩
  simp [VolcengineImageClient.generate, VolcengineImageClient.new,
    ApiKeyManager.get_credentials, hc, hres, sentUrls, sentRequests]

/-- Witness for C3 (amended): concrete config whose base URL carries one
trailing slash. -/
theorem volcengine_post_url_witness :
    BaseProvider.resolve_base_url_with_fallback
        (BaseProvider.new { sampleVolcConfig with base_url := "https://h/" }) mgrTok =
      .ok (stripOneTrailingSlash "https://h/") ∧
    sentUrls (VolcengineImageClient.generate
        (VolcengineImageClient.new { sampleVolcConfig with base_url := "https://h/" }) mgrTok
        (fun _ => .error "down") "m1" sampleRequest).snd =
      [trimEndSlashes (stripOneTrailingSlash "https://h/") ++ "/images/generations"] :=
  volcengine_post_url { sampleVolcConfig with base_url := "https://h/" } mgrTok
    (fun _ => .error "down") "m1" sampleRequest "tok" rfl rfl (by decide) rfl

/-- The double-trailing-slash config exhibiting the C3 counterexample. -/
def cfgDoubleSlash : ProviderConfig :=
  { sampleVolcConfig with base_url := "https://e//" }

/-- Counterexample to C3 as stated: with the default base URL
"https://e//", the resolved base URL (one slash stripped) is
"https://e/", but `generate` posts to "https://e/images/generations",
not to the claimed "https://e//images/generations", because the code
strips all remaining trailing slashes before appending. -/
theorem volcengine_post_url_counterexample :
    sentUrls (VolcengineImageClient.generate (VolcengineImageClient.new cfgDoubleSlash) mgrTok
        (fun _ => .error "down") "m1" sampleRequest).snd = ["https://e/images/generations"] ∧
    stripOneTrailingSlash cfgDoubleSlash.base_url ++ "/images/generations" =
      "https://e//images/generations" ∧
    ("https://e/images/generations" : String) ≠ "https://e//images/generations" := by
  refine ⟨?_, ?_, by decide⟩
  · rfl
  · rfl
